import Mathlib

/-!
Verification of the coordinate-mapping and interactive-marker subsystem of the
green-eye-putt-pro application.  The embedding below models, from the source:

* the IEEE-style number semantics of the JavaScript arithmetic that matters for
  the guards (division by zero producing infinities, 0/0 producing NaN), as the
  type JSNum over an arbitrary linear ordered field (finite values idealised as
  exact field elements; the platform square root is passed as a parameter and
  instantiated with the exact real square root in the theorems);
* the marker placement / drag / reset handlers and the capture-confirmation
  conversion of CameraCapture.tsx as transitions on an explicit component state;
* the level-tier computation and the haptic-on-transition effect;
* the break-path generator of AnalysisResults.tsx;
* the parse-fallback branch of the analyze-green edge function.
-/

namespace GreenEye

/-- Idealised JavaScript number: NaN, the two infinities, or a finite value
drawn from a linear ordered field (exact arithmetic; negative zero is
identified with zero). -/
inductive JSNum (α : Type) where
  | nan : JSNum α
  | posInf : JSNum α
  | negInf : JSNum α
  | fin : α → JSNum α
deriving DecidableEq

variable {α : Type} [LinearOrderedField α]

/-- JavaScript addition. -/
def jadd : JSNum α → JSNum α → JSNum α
  | .nan, _ => .nan
  | _, .nan => .nan
  | .posInf, .negInf => .nan
  | .negInf, .posInf => .nan
  | .posInf, _ => .posInf
  | _, .posInf => .posInf
  | .negInf, _ => .negInf
  | _, .negInf => .negInf
  | .fin a, .fin b => .fin (a + b)

/-- JavaScript subtraction. -/
def jsub : JSNum α → JSNum α → JSNum α
  | .nan, _ => .nan
  | _, .nan => .nan
  | .posInf, .posInf => .nan
  | .negInf, .negInf => .nan
  | .posInf, _ => .posInf
  | .negInf, _ => .negInf
  | _, .posInf => .negInf
  | _, .negInf => .posInf
  | .fin a, .fin b => .fin (a - b)

/-- JavaScript multiplication (an infinity times zero is NaN). -/
def jmul : JSNum α → JSNum α → JSNum α
  | .nan, _ => .nan
  | _, .nan => .nan
  | .posInf, .posInf => .posInf
  | .posInf, .negInf => .negInf
  | .negInf, .posInf => .negInf
  | .negInf, .negInf => .posInf
  | .posInf, .fin b => if b = 0 then .nan else if 0 < b then .posInf else .negInf
  | .fin a, .posInf => if a = 0 then .nan else if 0 < a then .posInf else .negInf
  | .negInf, .fin b => if b = 0 then .nan else if 0 < b then .negInf else .posInf
  | .fin a, .negInf => if a = 0 then .nan else if 0 < a then .negInf else .posInf
  | .fin a, .fin b => .fin (a * b)

/-- JavaScript division: 0/0 is NaN, a nonzero finite value divided by zero is
a signed infinity, infinity over infinity is NaN. -/
def jdiv : JSNum α → JSNum α → JSNum α
  | .nan, _ => .nan
  | _, .nan => .nan
  | .posInf, .posInf => .nan
  | .posInf, .negInf => .nan
  | .negInf, .posInf => .nan
  | .negInf, .negInf => .nan
  | .posInf, .fin b => if 0 ≤ b then .posInf else .negInf
  | .negInf, .fin b => if 0 ≤ b then .negInf else .posInf
  | .fin _, .posInf => .fin 0
  | .fin _, .negInf => .fin 0
  | .fin a, .fin b =>
      if b = 0 then (if a = 0 then .nan else if 0 < a then .posInf else .negInf)
      else .fin (a / b)

/-- JavaScript Math.sqrt lifted to JSNum; the square root on finite
non-negative values is supplied as the parameter f (the platform primitive),
instantiated with the exact real square root in the theorems. -/
def jsqrt (f : α → α) : JSNum α → JSNum α
  | .nan => .nan
  | .posInf => .posInf
  | .negInf => .nan
  | .fin a => if a < 0 then .nan else .fin (f a)

/-- A 2-D point, in whichever coordinate space the context fixes. -/
structure Point (α : Type) where
  x : α
  y : α
deriving DecidableEq

/-- Width and height of a coordinate space (viewport, image, or display). -/
structure Dims (α : Type) where
  width : α
  height : α
deriving DecidableEq

/-- The conversion pattern shared by confirmCapture (CameraCapture.tsx lines
533-545, viewport to image) and createPuttingPath (AnalysisResults.tsx lines
400-407, image to display): independent x/y scaling by targetW/sourceW and
targetH/sourceH, computed with JavaScript arithmetic. -/
def convert (p : Point α) (src tgt : Dims α) : JSNum α × JSNum α :=
  let scaleX := jdiv (.fin tgt.width) (.fin src.width)
  let scaleY := jdiv (.fin tgt.height) (.fin src.height)
  (jmul (.fin p.x) scaleX, jmul (.fin p.y) scaleY)

/-- The same scaling on plain field elements (the value convert produces when
no division by zero occurs); used to state the round-trip property. -/
def convertFin (p : Point α) (src tgt : Dims α) : Point α :=
  ⟨p.x * (tgt.width / src.width), p.y * (tgt.height / src.height)⟩

/-- Which marker a drag session targets (the isDragging state of
CameraCapture.tsx). -/
inductive Marker where
  | ball : Marker
  | hole : Marker
deriving DecidableEq

/-- The state of the CameraCapture component that the pointer, reset and
confirmation handlers read and write (CameraCapture.tsx lines 278-296).
Image data is kept opaque as a string. -/
structure CaptureState (α : Type) where
  isCameraActive : Bool
  ballViewportPos : Option (Point α)
  holeViewportPos : Option (Point α)
  ballPreviewPos : Option (Point α)
  holePreviewPos : Option (Point α)
  capturedImageData : Option String
  imageMetadata : Option (Dims α)
  viewportDimensions : Option (Dims α)
  isDragging : Option Marker
  touchPosition : Option (Point α)
deriving DecidableEq

/-- handleScreenClick (CameraCapture.tsx lines 400-421): guarded by camera
active, no captured image and no active drag; records the viewport dimensions
on the first click, then places the ball if unset, else the hole if unset,
else does nothing. -/
def handleScreenClick (s : CaptureState α)
    (clientX clientY rectLeft rectTop rectWidth rectHeight : α) : CaptureState α :=
  if !s.isCameraActive || s.capturedImageData.isSome || s.isDragging.isSome then s
  else
    let x := clientX - rectLeft
    let y := clientY - rectTop
    let s1 := if s.viewportDimensions.isNone then
      { s with viewportDimensions := some ⟨rectWidth, rectHeight⟩ } else s
    if s1.ballViewportPos.isNone then { s1 with ballViewportPos := some ⟨x, y⟩ }
    else if s1.holeViewportPos.isNone then { s1 with holeViewportPos := some ⟨x, y⟩ }
    else s1

/-- handleTouchStart (CameraCapture.tsx lines 423-437): same guard; records
the touch position and, when unset, the viewport dimensions. -/
def handleTouchStart (s : CaptureState α)
    (clientX clientY rectLeft rectTop rectWidth rectHeight : α) : CaptureState α :=
  if !s.isCameraActive || s.capturedImageData.isSome || s.isDragging.isSome then s
  else
    let x := clientX - rectLeft
    let y := clientY - rectTop
    let s1 := { s with touchPosition := some (⟨x, y⟩ : Point α) }
    if s1.viewportDimensions.isNone then
      { s1 with viewportDimensions := some ⟨rectWidth, rectHeight⟩ } else s1

/-- handleTouchMoveForMagnifier (CameraCapture.tsx lines 439-448): updates the
tracked touch position while a placement touch is in progress. -/
def handleTouchMoveForMagnifier (s : CaptureState α)
    (clientX clientY rectLeft rectTop : α) : CaptureState α :=
  if !s.isCameraActive || s.capturedImageData.isSome || s.isDragging.isSome
      || s.touchPosition.isNone then s
  else { s with touchPosition := some ⟨clientX - rectLeft, clientY - rectTop⟩ }

/-- handleTouchEnd (CameraCapture.tsx lines 450-464): same guard plus a
recorded touch position; places the ball if unset, else the hole if unset,
then clears the touch position. -/
def handleTouchEnd (s : CaptureState α) : CaptureState α :=
  if !s.isCameraActive || s.capturedImageData.isSome || s.isDragging.isSome then s
  else
    match s.touchPosition with
    | none => s
    | some tp =>
        if s.ballViewportPos.isNone then
          { s with ballViewportPos := some tp, touchPosition := none }
        else if s.holeViewportPos.isNone then
          { s with holeViewportPos := some tp, touchPosition := none }
        else { s with touchPosition := none }

/-- handleMarkerTouchMove (CameraCapture.tsx lines 482-495): while a drag is
active, moves only the dragged marker to the touch position. -/
def handleMarkerTouchMove (s : CaptureState α)
    (clientX clientY rectLeft rectTop : α) : CaptureState α :=
  match s.isDragging with
  | none => s
  | some .ball =>
      { s with ballViewportPos := some ⟨clientX - rectLeft, clientY - rectTop⟩ }
  | some .hole =>
      { s with holeViewportPos := some ⟨clientX - rectLeft, clientY - rectTop⟩ }

/-- handleResetMarkers (CameraCapture.tsx lines 497-502): clears the four
marker position fields and nothing else. -/
def handleResetMarkers (s : CaptureState α) : CaptureState α :=
  { s with ballViewportPos := none, holeViewportPos := none,
           ballPreviewPos := none, holePreviewPos := none }

/-- The img.onload completion of captureImage (CameraCapture.tsx lines
515-519): stores the captured image data and its intrinsic dimensions. -/
def captureComplete (s : CaptureState α) (img : String) (meta : Dims α) :
    CaptureState α :=
  { s with capturedImageData := some img, imageMetadata := some meta }

/-- What confirmCapture hands to the onCapture callback (CameraCapture.tsx
line 552): the image data, both markers in image-space coordinates, and the
image metadata. -/
structure Emission (α : Type) where
  imageData : String
  ball : JSNum α × JSNum α
  hole : JSNum α × JSNum α
  metadata : Dims α
deriving DecidableEq

/-- confirmCapture (CameraCapture.tsx lines 530-553): returns early unless the
captured image, its metadata, both markers and the recorded viewport
dimensions are all present; otherwise converts both markers from viewport to
image coordinates by scaleX = imageWidth/viewportWidth and
scaleY = imageHeight/viewportHeight and emits them. -/
def confirmCapture (s : CaptureState α) : Option (Emission α) :=
  match s.capturedImageData, s.imageMetadata, s.ballViewportPos,
      s.holeViewportPos, s.viewportDimensions with
  | some img, some meta, some ball, some hole, some vd =>
      some { imageData := img
             ball := convert ball vd meta
             hole := convert hole vd meta
             metadata := meta }
  | _, _, _, _, _ => none

/-- A raw device orientation sample (CameraCapture.tsx line 290). -/
structure Orientation (α : Type) where
  pitch : α
  roll : α
deriving DecidableEq

/-- The discrete level quality tier. -/
inductive Tier where
  | good : Tier
  | ok : Tier
  | bad : Tier
deriving DecidableEq

/-- What getLevelStatus returns (CameraCapture.tsx lines 364-372): the tier
together with the colour class and the user-facing text. -/
structure LevelStatus where
  status : Tier
  color : String
  text : String
deriving DecidableEq

/-- getLevelStatus (CameraCapture.tsx lines 364-372): good when the absolute
roll and the distance of pitch from 90 degrees are both under 10, ok when both
are under 20, bad otherwise. -/
def getLevelStatus (o : Orientation α) : LevelStatus :=
  let absRoll := |o.roll|
  let absPitch := |o.pitch - 90|
  if absRoll < 10 ∧ absPitch < 10 then
    { status := .good, color := "bg-green-500", text := "Perfekt vinkel!" }
  else if absRoll < 20 ∧ absPitch < 20 then
    { status := .ok, color := "bg-yellow-500", text := "Justera lite" }
  else { status := .bad, color := "bg-red-500", text := "Justera telefonen" }

/-- Haptic impact style (the three Haptics.impact calls). -/
inductive Pulse where
  | light : Pulse
  | medium : Pulse
  | heavy : Pulse
deriving DecidableEq

/-- The impact style fired for each tier (CameraCapture.tsx lines 318-324). -/
def pulseFor : Tier → Pulse
  | .good => .light
  | .ok => .medium
  | .bad => .heavy

/-- One run of the haptic effect (CameraCapture.tsx lines 313-326) on a fresh
orientation sample: when the camera is active and the computed tier differs
from the remembered last-emitted tier (initially none, the empty string in the
source), the tier is remembered and a pulse is fired; otherwise nothing
happens.  Returns the new remembered tier and the optional pulse. -/
def hapticStep (isCameraActive : Bool) (last : Option Tier) (o : Orientation α) :
    Option Tier × Option Pulse :=
  let t := (getLevelStatus o).status
  if isCameraActive = true ∧ last ≠ some t then (some t, some (pulseFor t))
  else (last, none)

/-- The haptic effect folded over a stream of orientation samples, collecting
the fired pulses in order. -/
def runHaptics (isCameraActive : Bool) :
    Option Tier → List (Orientation α) → Option Tier × List Pulse
  | last, [] => (last, [])
  | last, o :: rest =>
      let step := hapticStep isCameraActive last o
      let next := runHaptics isCameraActive step.1 rest
      (next.1, step.2.toList ++ next.2)

/-- The quadratic path emitted by createPuttingPath (AnalysisResults.tsx line
422): the SVG string M startX startY Q ctrlX ctrlY endX endY, kept as its six
coordinates. -/
structure QuadPath (α : Type) where
  startX : JSNum α
  startY : JSNum α
  ctrlX : JSNum α
  ctrlY : JSNum α
  endX : JSNum α
  endY : JSNum α
deriving DecidableEq

/-- The break-curve computation of createPuttingPath (AnalysisResults.tsx
lines 409-422) on the already-scaled display-space coordinates: midpoint,
delta, length via the supplied square root, break amount 0.15 times the
length, and the control point offset perpendicular to the ball-to-hole
vector.  sqrtFn is the platform Math.sqrt. -/
def breakControl (sqrtFn : α → α) (ballX ballY holeX holeY : JSNum α) :
    QuadPath α :=
  let midX := jdiv (jadd ballX holeX) (.fin 2)
  let midY := jdiv (jadd ballY holeY) (.fin 2)
  let dx := jsub holeX ballX
  let dy := jsub holeY ballY
  let length := jsqrt sqrtFn (jadd (jmul dx dx) (jmul dy dy))
  let breakAmount := jmul length (.fin (15 / 100))
  { startX := ballX, startY := ballY
    ctrlX := jadd midX (jmul (jdiv dy length) breakAmount)
    ctrlY := jsub midY (jmul (jdiv dx length) breakAmount)
    endX := holeX, endY := holeY }

/-- createPuttingPath (AnalysisResults.tsx lines 398-423): scales both markers
from image space to display space (scaleX = displayWidth/imageWidth,
scaleY = displayHeight/imageHeight), then builds the break curve on the
scaled coordinates. -/
def createPuttingPath (sqrtFn : α → α) (displayDimensions imageMetadata : Dims α)
    (ballMarker holeMarker : Point α) : QuadPath α :=
  let ball := convert ballMarker imageMetadata displayDimensions
  let hole := convert holeMarker imageMetadata displayDimensions
  breakControl sqrtFn ball.1 ball.2 hole.1 hole.2

/-- The putting-line part of the analysis payload.  The source field named
break (a reserved word in Lean) is called breakDesc here. -/
structure PuttingLine where
  direction : String
  breakDesc : String
  confidence : String
deriving DecidableEq

/-- The analysis payload the edge function returns on success. -/
structure AnalysisData where
  puttingLine : PuttingLine
  recommendations : List String
deriving DecidableEq

/-- The body of the edge-function response: a parsed analysis or an error
message. -/
inductive ResponseBody where
  | ok : AnalysisData → ResponseBody
  | error : String → ResponseBody
deriving DecidableEq

/-- An HTTP response of the analyze-green edge function: status code and
body. -/
structure AnalyzeResponse where
  status : Nat
  body : ResponseBody
deriving DecidableEq

/-- The hardcoded fallback payload substituted when the AI response cannot be
parsed (unnamed/part_000 lines 134-147). -/
def fallbackAnalysis : AnalysisData :=
  { puttingLine :=
      { direction := "Aim slightly left of center"
        breakDesc := "Moderate right-to-left break expected"
        confidence := "Medium confidence (65%)" }
    recommendations :=
      [ "Account for green slope in your read"
      , "Use medium pace for this distance"
      , "Watch the grain direction"
      , "Trust your line and commit to the stroke" ] }

/-- The response construction of the analyze-green edge function after the
gateway call (unnamed/part_000 lines 86-155): a non-ok gateway status maps to
the 429/402 messages or a 500; a missing content field maps to a 500; an ok
status with content parses the text with the platform JSON machinery
(abstracted as parseJson) and on parse failure substitutes the hardcoded
fallback, returning status 200 either way. -/
def analyzeGreenResponse (parseJson : String → Option AnalysisData)
    (gatewayOk : Bool) (gatewayStatus : Nat) (content : Option String) :
    AnalyzeResponse :=
  if !gatewayOk then
    if gatewayStatus = 429 then
      { status := 429, body := .error "Rate limit exceeded. Please try again in a moment." }
    else if gatewayStatus = 402 then
      { status := 402, body := .error "AI credits depleted. Please add more credits to your workspace." }
    else { status := 500, body := .error "AI gateway error" }
  else
    match content with
    | none => { status := 500, body := .error "No analysis received from AI" }
    | some text =>
        match parseJson text with
        | some analysis => { status := 200, body := .ok analysis }
        | none => { status := 200, body := .ok fallbackAnalysis }

/-- Claim C1: with viewport dimensions 1000 by 800 recorded at the first tap,
the ball tapped at (100,100), the hole at (900,700), and a captured image of
intrinsic size 3000 by 2400, the conversion performed by confirmCapture emits
ball = (300,300) and hole = (2700,2100) in image space: a scale factor of 3 on
each axis, x and y scaled independently. -/
theorem migration_end_to_end :
    confirmCapture (captureComplete
      (handleScreenClick
        (handleScreenClick
          ({ isCameraActive := true
             ballViewportPos := none
             holeViewportPos := none
             ballPreviewPos := none
             holePreviewPos := none
             capturedImageData := none
             imageMetadata := none
             viewportDimensions := none
             isDragging := none
             touchPosition := none } : CaptureState ℚ)
          100 100 0 0 1000 800)
        900 700 0 0 1000 800)
      "img" ⟨3000, 2400⟩) =
    some { imageData := "img"
           ball := (.fin 300, .fin (300 : ℚ))
           hole := (.fin 2700, .fin 2100)
           metadata := ⟨3000, 2400⟩ } := by
  norm_num [confirmCapture, captureComplete, handleScreenClick, convert, jdiv, jmul]

/-- Counterexample to claim C4: on equal ball and hole markers the source
createPuttingPath (with the exact real square root standing for Math.sqrt)
emits NaN for both control-point coordinates, because the division of the
zero delta by the zero length is unguarded; the claim asserts its output has
no NaN coordinates. -/
theorem createPuttingPath_nan_on_equal_markers :
    createPuttingPath Real.sqrt ⟨1000, 800⟩ ⟨1000, 800⟩ ⟨100, 100⟩ ⟨100, 100⟩ =
      { startX := .fin 100, startY := .fin 100, ctrlX := .nan, ctrlY := .nan,
        endX := .fin 100, endY := .fin 100 } := by
  simp [createPuttingPath, convert, breakControl, jadd, jsub, jmul, jdiv, jsqrt,
    Real.sqrt_zero]

/-- Claim C4 as amended: when the ball and hole points are equal, the
break-path generator still terminates with a path whose start and end are the
common point (a zero-length chord), but the control-point coordinates are NaN:
the division of the zero delta by the zero length is not guarded. -/
theorem breakControl_equal_markers (x y : ℝ) :
    breakControl Real.sqrt (.fin x) (.fin y) (.fin x) (.fin y) =
      { startX := .fin x, startY := .fin y, ctrlX := .nan, ctrlY := .nan,
        endX := .fin x, endY := .fin y } := by
  simp [breakControl, jadd, jsub, jmul, jdiv, jsqrt, Real.sqrt_zero]

/-- Counterexample to claim C5: confirmCapture applies no degenerate-space
guard.  With recorded viewport dimensions 0 by 800 and image size 3000 by
2400, the emitted ball x coordinate is positive infinity — neither the input
point unchanged nor a rejection, so a marker does become infinite. -/
theorem confirmCapture_degenerate_counterexample :
    confirmCapture
      ({ isCameraActive := true
         ballViewportPos := some ⟨100, 100⟩
         holeViewportPos := some ⟨900, 700⟩
         ballPreviewPos := none
         holePreviewPos := none
         capturedImageData := some "img"
         imageMetadata := some ⟨3000, 2400⟩
         viewportDimensions := some ⟨0, 800⟩
         isDragging := none
         touchPosition := none } : CaptureState ℚ) =
      some { imageData := "img"
             ball := (.posInf, .fin 300)
             hole := (.posInf, .fin (2100 : ℚ))
             metadata := ⟨3000, 2400⟩ } ∧
    (JSNum.posInf : JSNum ℚ) ≠ .fin 100 := by
  refine ⟨?_, by decide⟩
  norm_num [confirmCapture, convert, jdiv, jmul]

/-- Claim C9: when the AI gateway answered successfully but its content cannot
be parsed into the expected analysis JSON, the analyze-green handler returns a
successful (200) response carrying the fixed hardcoded fallback payload, whose
putting line has a direction, break and confidence and which has exactly four
recommendation strings. -/
theorem malformed_response_fallback (parseJson : String → Option AnalysisData)
    (text : String) (gatewayStatus : Nat) (h : parseJson text = none) :
    analyzeGreenResponse parseJson true gatewayStatus (some text) =
      { status := 200, body := .ok fallbackAnalysis } ∧
    fallbackAnalysis.recommendations.length = 4 ∧
    fallbackAnalysis.puttingLine.direction = "Aim slightly left of center" ∧
    fallbackAnalysis.puttingLine.breakDesc = "Moderate right-to-left break expected" ∧
    fallbackAnalysis.puttingLine.confidence = "Medium confidence (65%)" := by
  refine ⟨?_, rfl, rfl, rfl, rfl⟩
  simp [analyzeGreenResponse, h]

/-- Witness for the malformed-response fallback at a concrete failing
parser. -/
theorem malformed_response_fallback_check :
    (fun _ : String => (none : Option AnalysisData)) "garbage" = none ∧
    (analyzeGreenResponse (fun _ => none) true 200 (some "garbage") =
      { status := 200, body := .ok fallbackAnalysis } ∧
    fallbackAnalysis.recommendations.length = 4 ∧
    fallbackAnalysis.puttingLine.direction = "Aim slightly left of center" ∧
    fallbackAnalysis.puttingLine.breakDesc = "Moderate right-to-left break expected" ∧
    fallbackAnalysis.puttingLine.confidence = "Medium confidence (65%)") :=
  ⟨rfl, malformed_response_fallback (fun _ => none) "garbage" 200 rfl⟩

/-- Claim C2: converting a point from space A to space B by independent x/y
scaling and then converting the result back from B to A yields the point
again, exactly, whenever all four dimensions are non-zero; the first conjunct
records that the source conversion indeed produces the finite scaled point. -/
theorem convert_round_trip (p : Point α) (A B : Dims α)
    (hAw : A.width ≠ 0) (hAh : A.height ≠ 0)
    (hBw : B.width ≠ 0) (hBh : B.height ≠ 0) :
    convert p A B = (.fin (convertFin p A B).x, .fin (convertFin p A B).y) ∧
    convert (convertFin p A B) B A = (.fin p.x, .fin p.y) := by
  constructor
  · simp [convert, convertFin, jdiv, jmul, hAw, hAh]
  · simp only [convert, convertFin, jdiv, jmul, if_neg hBw, if_neg hBh,
      Prod.mk.injEq, JSNum.fin.injEq]
    constructor <;> field_simp

/-- Witness for the round-trip property at a concrete point and spaces. -/
theorem convert_round_trip_check :
    ((4 : ℚ) ≠ 0 ∧ (5 : ℚ) ≠ 0 ∧ (6 : ℚ) ≠ 0 ∧ (10 : ℚ) ≠ 0) ∧
    (convert (⟨7, 11⟩ : Point ℚ) ⟨4, 5⟩ ⟨6, 10⟩ =
      (.fin (convertFin (⟨7, 11⟩ : Point ℚ) ⟨4, 5⟩ ⟨6, 10⟩).x,
       .fin (convertFin (⟨7, 11⟩ : Point ℚ) ⟨4, 5⟩ ⟨6, 10⟩).y) ∧
    convert (convertFin (⟨7, 11⟩ : Point ℚ) ⟨4, 5⟩ ⟨6, 10⟩) ⟨6, 10⟩ ⟨4, 5⟩ =
      (.fin 7, .fin 11)) :=
  ⟨⟨by decide, by decide, by decide, by decide⟩,
   convert_round_trip ⟨7, 11⟩ ⟨4, 5⟩ ⟨6, 10⟩
     (by decide) (by decide) (by decide) (by decide)⟩

/-- Claim C3: from a state with both markers unset (camera active, nothing
captured, no drag), the first screen tap places only the ball at the tapped
point, the second places only the hole, and a third tap leaves the state
unchanged entirely. -/
theorem placement_order (s s₁ s₂ : CaptureState α)
    (cx₁ cy₁ rl₁ rt₁ rw₁ rh₁ cx₂ cy₂ rl₂ rt₂ rw₂ rh₂ cx₃ cy₃ rl₃ rt₃ rw₃ rh₃ : α)
    (hactive : s.isCameraActive = true)
    (hcap : s.capturedImageData = none)
    (hdrag : s.isDragging = none)
    (hball : s.ballViewportPos = none)
    (hhole : s.holeViewportPos = none)
    (hs₁ : s₁ = handleScreenClick s cx₁ cy₁ rl₁ rt₁ rw₁ rh₁)
    (hs₂ : s₂ = handleScreenClick s₁ cx₂ cy₂ rl₂ rt₂ rw₂ rh₂) :
    s₁.ballViewportPos = some ⟨cx₁ - rl₁, cy₁ - rt₁⟩ ∧
    s₁.holeViewportPos = none ∧
    s₂.ballViewportPos = some ⟨cx₁ - rl₁, cy₁ - rt₁⟩ ∧
    s₂.holeViewportPos = some ⟨cx₂ - rl₂, cy₂ - rt₂⟩ ∧
    handleScreenClick s₂ cx₃ cy₃ rl₃ rt₃ rw₃ rh₃ = s₂ := by
  subst hs₁ hs₂
  cases hvd : s.viewportDimensions <;>
    simp [handleScreenClick, hactive, hcap, hdrag, hball, hhole, hvd]

/-- Witness for the placement order property at a concrete state and taps. -/
theorem placement_order_check :
    ((⟨true, none, none, none, none, none, none, none, none, none⟩ :
        CaptureState ℚ).isCameraActive = true ∧
     handleScreenClick
        (handleScreenClick
          (⟨true, none, none, none, none, none, none, none, none, none⟩ :
            CaptureState ℚ) 100 100 0 0 1000 800)
        900 700 0 0 1000 800 =
      handleScreenClick
        (handleScreenClick
          (⟨true, none, none, none, none, none, none, none, none, none⟩ :
            CaptureState ℚ) 100 100 0 0 1000 800)
        900 700 0 0 1000 800) ∧
    ((handleScreenClick
        (⟨true, none, none, none, none, none, none, none, none, none⟩ :
          CaptureState ℚ) 100 100 0 0 1000 800).ballViewportPos =
        some ⟨100 - 0, 100 - 0⟩ ∧
     (handleScreenClick
        (⟨true, none, none, none, none, none, none, none, none, none⟩ :
          CaptureState ℚ) 100 100 0 0 1000 800).holeViewportPos = none ∧
     (handleScreenClick (handleScreenClick
        (⟨true, none, none, none, none, none, none, none, none, none⟩ :
          CaptureState ℚ) 100 100 0 0 1000 800)
        900 700 0 0 1000 800).ballViewportPos = some ⟨100 - 0, 100 - 0⟩ ∧
     (handleScreenClick (handleScreenClick
        (⟨true, none, none, none, none, none, none, none, none, none⟩ :
          CaptureState ℚ) 100 100 0 0 1000 800)
        900 700 0 0 1000 800).holeViewportPos = some ⟨900 - 0, 700 - 0⟩ ∧
     handleScreenClick (handleScreenClick (handleScreenClick
        (⟨true, none, none, none, none, none, none, none, none, none⟩ :
          CaptureState ℚ) 100 100 0 0 1000 800)
        900 700 0 0 1000 800) 50 60 0 0 1000 800 =
      handleScreenClick (handleScreenClick
        (⟨true, none, none, none, none, none, none, none, none, none⟩ :
          CaptureState ℚ) 100 100 0 0 1000 800)
        900 700 0 0 1000 800) :=
  ⟨⟨rfl, rfl⟩,
   placement_order _ _ _ 100 100 0 0 1000 800 900 700 0 0 1000 800 50 60 0 0 1000 800
     rfl rfl rfl rfl rfl rfl rfl⟩

/-- Claim C6: for ball and hole points at non-zero distance in the common
rendering space, the generated quadratic curve runs from the ball to the hole
and its control point is the midpoint plus the offset
((hole-ball).y/len, -(hole-ball).x/len) scaled by len times 0.15, i.e. an
offset perpendicular to the ball-to-hole vector of 0.15 times its length. -/
theorem break_path_formula (x₁ y₁ x₂ y₂ : ℝ) (h : ¬(x₁ = x₂ ∧ y₁ = y₂)) :
    breakControl Real.sqrt (.fin x₁) (.fin y₁) (.fin x₂) (.fin y₂) =
      { startX := .fin x₁, startY := .fin y₁
        ctrlX := .fin ((x₁ + x₂) / 2 +
          (y₂ - y₁) / Real.sqrt ((x₂ - x₁) * (x₂ - x₁) + (y₂ - y₁) * (y₂ - y₁)) *
            (Real.sqrt ((x₂ - x₁) * (x₂ - x₁) + (y₂ - y₁) * (y₂ - y₁)) * (15 / 100)))
        ctrlY := .fin ((y₁ + y₂) / 2 -
          (x₂ - x₁) / Real.sqrt ((x₂ - x₁) * (x₂ - x₁) + (y₂ - y₁) * (y₂ - y₁)) *
            (Real.sqrt ((x₂ - x₁) * (x₂ - x₁) + (y₂ - y₁) * (y₂ - y₁)) * (15 / 100)))
        endX := .fin x₂, endY := .fin y₂ } := by
  have hS : 0 < (x₂ - x₁) * (x₂ - x₁) + (y₂ - y₁) * (y₂ - y₁) := by
    rcases not_and_or.mp h with h1 | h1
    · have hx : x₂ - x₁ ≠ 0 := sub_ne_zero.mpr (Ne.symm h1)
      have := mul_self_pos.mpr hx
      nlinarith [mul_self_nonneg (y₂ - y₁)]
    · have hy : y₂ - y₁ ≠ 0 := sub_ne_zero.mpr (Ne.symm h1)
      have := mul_self_pos.mpr hy
      nlinarith [mul_self_nonneg (x₂ - x₁)]
  have hlen : Real.sqrt ((x₂ - x₁) * (x₂ - x₁) + (y₂ - y₁) * (y₂ - y₁)) ≠ 0 :=
    ne_of_gt (Real.sqrt_pos.mpr hS)
  have hneg : ¬((x₂ - x₁) * (x₂ - x₁) + (y₂ - y₁) * (y₂ - y₁) < 0) := not_lt.mpr hS.le
  simp [breakControl, jadd, jsub, jmul, jdiv, jsqrt, hneg, hlen,
    (by norm_num : (2 : ℝ) ≠ 0)]

/-- Witness for the break-path formula at the concrete points (0,0), (3,4). -/
theorem break_path_formula_check :
    ¬((0 : ℝ) = 3 ∧ (0 : ℝ) = 4) ∧
    breakControl Real.sqrt (.fin 0) (.fin 0) (.fin 3) (.fin 4) =
      { startX := .fin 0, startY := .fin 0
        ctrlX := .fin (((0 : ℝ) + 3) / 2 +
          ((4 : ℝ) - 0) / Real.sqrt (((3 : ℝ) - 0) * ((3 : ℝ) - 0) + ((4 : ℝ) - 0) * ((4 : ℝ) - 0)) *
            (Real.sqrt (((3 : ℝ) - 0) * ((3 : ℝ) - 0) + ((4 : ℝ) - 0) * ((4 : ℝ) - 0)) * (15 / 100)))
        ctrlY := .fin (((0 : ℝ) + 4) / 2 -
          ((3 : ℝ) - 0) / Real.sqrt (((3 : ℝ) - 0) * ((3 : ℝ) - 0) + ((4 : ℝ) - 0) * ((4 : ℝ) - 0)) *
            (Real.sqrt (((3 : ℝ) - 0) * ((3 : ℝ) - 0) + ((4 : ℝ) - 0) * ((4 : ℝ) - 0)) * (15 / 100)))
        endX := .fin 3, endY := .fin 4 } :=
  ⟨by norm_num, break_path_formula 0 0 3 4 (by norm_num)⟩

/-- The haptic fold is silent on samples whose tier equals the remembered
tier. -/
theorem runHaptics_const_silent (n : ℕ) (o : Orientation α) :
    runHaptics true (some (getLevelStatus o).status) (List.replicate n o) =
      (some (getLevelStatus o).status, []) := by
  induction n with
  | zero => simp [runHaptics]
  | succ k ih => simp [List.replicate_succ, runHaptics, hapticStep, ih]

/-- Claim C7: a haptic pulse is emitted exactly when the tier of the current
sample differs from the last-emitted tier; a constant sample stream of any
positive length emits exactly one pulse, and a Good/Bad/Good stream emits one
pulse per transition (three pulses from the initial empty memory). -/
theorem level_tier_hysteresis (o g b : Orientation α) (last : Option Tier) (n : ℕ)
    (hn : 1 ≤ n)
    (hg : (getLevelStatus g).status = .good)
    (hb : (getLevelStatus b).status = .bad) :
    ((hapticStep true last o).2.isSome ↔ last ≠ some (getLevelStatus o).status) ∧
    (runHaptics true none (List.replicate n o)).2.length = 1 ∧
    (runHaptics true none [g, b, g]).2.length = 3 := by
  refine ⟨?_, ?_, ?_⟩
  · by_cases hl : last = some (getLevelStatus o).status <;> simp [hapticStep, hl]
  · obtain ⟨m, rfl⟩ : ∃ m, n = m + 1 := ⟨n - 1, (Nat.succ_pred_eq_of_pos hn).symm⟩
    simp [List.replicate_succ, runHaptics, hapticStep, runHaptics_const_silent]
  · simp [runHaptics, hapticStep, hg, hb]

/-- Witness for the level-tier hysteresis at concrete samples: pitch 90 and
roll 0 is Good, pitch 0 and roll 0 is Bad, and a stream of five Good samples
emits a single pulse. -/
theorem level_tier_hysteresis_check :
    (1 ≤ 5 ∧
     (getLevelStatus (⟨90, 0⟩ : Orientation ℚ)).status = .good ∧
     (getLevelStatus (⟨0, 0⟩ : Orientation ℚ)).status = .bad) ∧
    (((hapticStep true none (⟨90, 0⟩ : Orientation ℚ)).2.isSome ↔
        none ≠ some (getLevelStatus (⟨90, 0⟩ : Orientation ℚ)).status) ∧
     (runHaptics true none (List.replicate 5 (⟨90, 0⟩ : Orientation ℚ))).2.length = 1 ∧
     (runHaptics true none
        [(⟨90, 0⟩ : Orientation ℚ), ⟨0, 0⟩, ⟨90, 0⟩]).2.length = 3) :=
  ⟨⟨by decide, by norm_num [getLevelStatus], by norm_num [getLevelStatus]⟩,
   level_tier_hysteresis ⟨90, 0⟩ ⟨90, 0⟩ ⟨0, 0⟩ none 5
     (by decide) (by norm_num [getLevelStatus]) (by norm_num [getLevelStatus])⟩

/-- Claim C8: while a drag session is active, the tap and touch placement
handlers leave the state untouched, and the marker move handler mutates only
the dragged marker's own position. -/
theorem drag_exclusivity (s : CaptureState α) (m : Marker) (cx cy rl rt rw rh : α)
    (hdrag : s.isDragging = some m) :
    handleScreenClick s cx cy rl rt rw rh = s ∧
    handleTouchStart s cx cy rl rt rw rh = s ∧
    handleTouchMoveForMagnifier s cx cy rl rt = s ∧
    handleTouchEnd s = s ∧
    handleMarkerTouchMove s cx cy rl rt =
      (match m with
       | .ball => { s with ballViewportPos := some ⟨cx - rl, cy - rt⟩ }
       | .hole => { s with holeViewportPos := some ⟨cx - rl, cy - rt⟩ }) := by
  cases m <;>
    simp [handleScreenClick, handleTouchStart, handleTouchMoveForMagnifier,
      handleTouchEnd, handleMarkerTouchMove, hdrag]

/-- Witness for drag exclusivity at a concrete dragging state. -/
theorem drag_exclusivity_check :
    ((⟨true, some ⟨100, 100⟩, some ⟨900, 700⟩, none, none, none, none,
        some ⟨1000, 800⟩, some .ball, none⟩ : CaptureState ℚ).isDragging =
      some .ball) ∧
    (handleScreenClick
        (⟨true, some ⟨100, 100⟩, some ⟨900, 700⟩, none, none, none, none,
          some ⟨1000, 800⟩, some .ball, none⟩ : CaptureState ℚ) 5 6 0 0 1000 800 =
      (⟨true, some ⟨100, 100⟩, some ⟨900, 700⟩, none, none, none, none,
        some ⟨1000, 800⟩, some .ball, none⟩ : CaptureState ℚ) ∧
     handleTouchStart
        (⟨true, some ⟨100, 100⟩, some ⟨900, 700⟩, none, none, none, none,
          some ⟨1000, 800⟩, some .ball, none⟩ : CaptureState ℚ) 5 6 0 0 1000 800 =
      (⟨true, some ⟨100, 100⟩, some ⟨900, 700⟩, none, none, none, none,
        some ⟨1000, 800⟩, some .ball, none⟩ : CaptureState ℚ) ∧
     handleTouchMoveForMagnifier
        (⟨true, some ⟨100, 100⟩, some ⟨900, 700⟩, none, none, none, none,
          some ⟨1000, 800⟩, some .ball, none⟩ : CaptureState ℚ) 5 6 0 0 =
      (⟨true, some ⟨100, 100⟩, some ⟨900, 700⟩, none, none, none, none,
        some ⟨1000, 800⟩, some .ball, none⟩ : CaptureState ℚ) ∧
     handleTouchEnd
        (⟨true, some ⟨100, 100⟩, some ⟨900, 700⟩, none, none, none, none,
          some ⟨1000, 800⟩, some .ball, none⟩ : CaptureState ℚ) =
      (⟨true, some ⟨100, 100⟩, some ⟨900, 700⟩, none, none, none, none,
        some ⟨1000, 800⟩, some .ball, none⟩ : CaptureState ℚ) ∧
     handleMarkerTouchMove
        (⟨true, some ⟨100, 100⟩, some ⟨900, 700⟩, none, none, none, none,
          some ⟨1000, 800⟩, some .ball, none⟩ : CaptureState ℚ) 5 6 0 0 =
      (match Marker.ball with
       | .ball =>
          { (⟨true, some ⟨100, 100⟩, some ⟨900, 700⟩, none, none, none, none,
              some ⟨1000, 800⟩, some .ball, none⟩ : CaptureState ℚ) with
            ballViewportPos := some ⟨5 - 0, 6 - 0⟩ }
       | .hole =>
          { (⟨true, some ⟨100, 100⟩, some ⟨900, 700⟩, none, none, none, none,
              some ⟨1000, 800⟩, some .ball, none⟩ : CaptureState ℚ) with
            holeViewportPos := some ⟨5 - 0, 6 - 0⟩ })) :=
  ⟨rfl,
   drag_exclusivity
     (⟨true, some ⟨100, 100⟩, some ⟨900, 700⟩, none, none, none, none,
       some ⟨1000, 800⟩, some .ball, none⟩ : CaptureState ℚ) .ball 5 6 0 0 1000 800 rfl⟩

/-- Claim C10: resetting the markers clears exactly the four marker position
fields (ball and hole, viewport and preview representations) and leaves the
recorded viewport dimensions, the captured image data, the image metadata and
all remaining state unchanged; and because the viewport dimensions are only
recorded when unset, a subsequent tap after the reset keeps the previously
recorded dimensions. -/
theorem reset_markers_frame (s : CaptureState α) (d : Dims α)
    (cx cy rl rt rw rh : α) (hd : s.viewportDimensions = some d) :
    (handleResetMarkers s).ballViewportPos = none ∧
    (handleResetMarkers s).holeViewportPos = none ∧
    (handleResetMarkers s).ballPreviewPos = none ∧
    (handleResetMarkers s).holePreviewPos = none ∧
    (handleResetMarkers s).viewportDimensions = s.viewportDimensions ∧
    (handleResetMarkers s).capturedImageData = s.capturedImageData ∧
    (handleResetMarkers s).imageMetadata = s.imageMetadata ∧
    (handleResetMarkers s).isCameraActive = s.isCameraActive ∧
    (handleResetMarkers s).isDragging = s.isDragging ∧
    (handleResetMarkers s).touchPosition = s.touchPosition ∧
    (handleScreenClick (handleResetMarkers s) cx cy rl rt rw rh).viewportDimensions =
      some d := by
  refine ⟨rfl, rfl, rfl, rfl, rfl, rfl, rfl, rfl, rfl, rfl, ?_⟩
  simp only [handleResetMarkers, handleScreenClick]
  split
  · simpa using hd
  · simp [hd]

/-- Witness for the reset frame property at a concrete state. -/
theorem reset_markers_frame_check :
    ((⟨true, some ⟨100, 100⟩, some ⟨900, 700⟩, some ⟨1, 1⟩, some ⟨2, 2⟩, none, none,
        some ⟨1000, 800⟩, none, none⟩ : CaptureState ℚ).viewportDimensions =
      some ⟨1000, 800⟩) ∧
    ((handleResetMarkers
        (⟨true, some ⟨100, 100⟩, some ⟨900, 700⟩, some ⟨1, 1⟩, some ⟨2, 2⟩, none, none,
          some ⟨1000, 800⟩, none, none⟩ : CaptureState ℚ)).ballViewportPos = none ∧
     (handleResetMarkers
        (⟨true, some ⟨100, 100⟩, some ⟨900, 700⟩, some ⟨1, 1⟩, some ⟨2, 2⟩, none, none,
          some ⟨1000, 800⟩, none, none⟩ : CaptureState ℚ)).holeViewportPos = none ∧
     (handleResetMarkers
        (⟨true, some ⟨100, 100⟩, some ⟨900, 700⟩, some ⟨1, 1⟩, some ⟨2, 2⟩, none, none,
          some ⟨1000, 800⟩, none, none⟩ : CaptureState ℚ)).ballPreviewPos = none ∧
     (handleResetMarkers
        (⟨true, some ⟨100, 100⟩, some ⟨900, 700⟩, some ⟨1, 1⟩, some ⟨2, 2⟩, none, none,
          some ⟨1000, 800⟩, none, none⟩ : CaptureState ℚ)).holePreviewPos = none ∧
     (handleResetMarkers
        (⟨true, some ⟨100, 100⟩, some ⟨900, 700⟩, some ⟨1, 1⟩, some ⟨2, 2⟩, none, none,
          some ⟨1000, 800⟩, none, none⟩ : CaptureState ℚ)).viewportDimensions =
        (⟨true, some ⟨100, 100⟩, some ⟨900, 700⟩, some ⟨1, 1⟩, some ⟨2, 2⟩, none, none,
          some ⟨1000, 800⟩, none, none⟩ : CaptureState ℚ).viewportDimensions ∧
     (handleResetMarkers
        (⟨true, some ⟨100, 100⟩, some ⟨900, 700⟩, some ⟨1, 1⟩, some ⟨2, 2⟩, none, none,
          some ⟨1000, 800⟩, none, none⟩ : CaptureState ℚ)).capturedImageData =
        (⟨true, some ⟨100, 100⟩, some ⟨900, 700⟩, some ⟨1, 1⟩, some ⟨2, 2⟩, none, none,
          some ⟨1000, 800⟩, none, none⟩ : CaptureState ℚ).capturedImageData ∧
     (handleResetMarkers
        (⟨true, some ⟨100, 100⟩, some ⟨900, 700⟩, some ⟨1, 1⟩, some ⟨2, 2⟩, none, none,
          some ⟨1000, 800⟩, none, none⟩ : CaptureState ℚ)).imageMetadata =
        (⟨true, some ⟨100, 100⟩, some ⟨900, 700⟩, some ⟨1, 1⟩, some ⟨2, 2⟩, none, none,
          some ⟨1000, 800⟩, none, none⟩ : CaptureState ℚ).imageMetadata ∧
     (handleResetMarkers
        (⟨true, some ⟨100, 100⟩, some ⟨900, 700⟩, some ⟨1, 1⟩, some ⟨2, 2⟩, none, none,
          some ⟨1000, 800⟩, none, none⟩ : CaptureState ℚ)).isCameraActive =
        (⟨true, some ⟨100, 100⟩, some ⟨900, 700⟩, some ⟨1, 1⟩, some ⟨2, 2⟩, none, none,
          some ⟨1000, 800⟩, none, none⟩ : CaptureState ℚ).isCameraActive ∧
     (handleResetMarkers
        (⟨true, some ⟨100, 100⟩, some ⟨900, 700⟩, some ⟨1, 1⟩, some ⟨2, 2⟩, none, none,
          some ⟨1000, 800⟩, none, none⟩ : CaptureState ℚ)).isDragging =
        (⟨true, some ⟨100, 100⟩, some ⟨900, 700⟩, some ⟨1, 1⟩, some ⟨2, 2⟩, none, none,
          some ⟨1000, 800⟩, none, none⟩ : CaptureState ℚ).isDragging ∧
     (handleResetMarkers
        (⟨true, some ⟨100, 100⟩, some ⟨900, 700⟩, some ⟨1, 1⟩, some ⟨2, 2⟩, none, none,
          some ⟨1000, 800⟩, none, none⟩ : CaptureState ℚ)).touchPosition =
        (⟨true, some ⟨100, 100⟩, some ⟨900, 700⟩, some ⟨1, 1⟩, some ⟨2, 2⟩, none, none,
          some ⟨1000, 800⟩, none, none⟩ : CaptureState ℚ).touchPosition ∧
     (handleScreenClick (handleResetMarkers
        (⟨true, some ⟨100, 100⟩, some ⟨900, 700⟩, some ⟨1, 1⟩, some ⟨2, 2⟩, none, none,
          some ⟨1000, 800⟩, none, none⟩ : CaptureState ℚ)) 5 6 0 0 640 480).viewportDimensions =
        some ⟨1000, 800⟩) :=
  ⟨rfl,
   reset_markers_frame
     (⟨true, some ⟨100, 100⟩, some ⟨900, 700⟩, some ⟨1, 1⟩, some ⟨2, 2⟩, none, none,
       some ⟨1000, 800⟩, none, none⟩ : CaptureState ℚ) ⟨1000, 800⟩ 5 6 0 0 640 480 rfl⟩

/-- Claim C5 as amended: the confirmCapture conversion succeeds with finite
scaled coordinates whenever the recorded viewport dimensions are both
non-zero (so it can only degenerate when a space dimension is zero); but on a
zero-width viewport there is no guard and no error path: with positive image
width and positive marker x, the emitted x coordinate is positive infinity
rather than the input value or a rejection, so a marker does become
infinite. -/
theorem confirmCapture_degenerate_behavior (s₁ s₂ : CaptureState α)
    (img₁ img₂ : String) (b₁ h₁ b₂ h₂ : Point α) (vd₁ vd₂ meta₁ meta₂ : Dims α)
    (e₁ : s₁.capturedImageData = some img₁) (e₂ : s₁.imageMetadata = some meta₁)
    (e₃ : s₁.ballViewportPos = some b₁) (e₄ : s₁.holeViewportPos = some h₁)
    (e₅ : s₁.viewportDimensions = some vd₁)
    (w₁ : vd₁.width ≠ 0) (w₂ : vd₁.height ≠ 0)
    (f₁ : s₂.capturedImageData = some img₂) (f₂ : s₂.imageMetadata = some meta₂)
    (f₃ : s₂.ballViewportPos = some b₂) (f₄ : s₂.holeViewportPos = some h₂)
    (f₅ : s₂.viewportDimensions = some vd₂)
    (z₁ : vd₂.width = 0) (z₂ : 0 < meta₂.width) (z₃ : 0 < b₂.x) :
    confirmCapture s₁ = some
      { imageData := img₁
        ball := (.fin (b₁.x * (meta₁.width / vd₁.width)),
                 .fin (b₁.y * (meta₁.height / vd₁.height)))
        hole := (.fin (h₁.x * (meta₁.width / vd₁.width)),
                 .fin (h₁.y * (meta₁.height / vd₁.height)))
        metadata := meta₁ } ∧
    (confirmCapture s₂).map (fun e => e.ball.1) = some .posInf := by
  constructor
  · simp [confirmCapture, e₁, e₂, e₃, e₄, e₅, convert, jdiv, jmul, w₁, w₂]
  · simp [confirmCapture, f₁, f₂, f₃, f₄, f₅, convert, jdiv, jmul, z₁, z₂, z₃,
      z₂.ne', z₃.ne']

/-- Witness for the amended degenerate-conversion behaviour at a
non-degenerate and a zero-width concrete state. -/
theorem confirmCapture_degenerate_behavior_check :
    ((⟨true, some ⟨100, 100⟩, some ⟨900, 700⟩, none, none, some "img",
        some ⟨3000, 2400⟩, some ⟨1000, 800⟩, none, none⟩ :
          CaptureState ℚ).capturedImageData = some "img" ∧
     (⟨true, some ⟨100, 100⟩, some ⟨900, 700⟩, none, none, some "img",
        some ⟨3000, 2400⟩, some ⟨0, 800⟩, none, none⟩ :
          CaptureState ℚ).viewportDimensions = some ⟨0, 800⟩ ∧
     (1000 : ℚ) ≠ 0 ∧ (800 : ℚ) ≠ 0 ∧
     ((0 : ℚ), (800 : ℚ)).1 = 0 ∧ (0 : ℚ) < 3000 ∧ (0 : ℚ) < 100) ∧
    (confirmCapture
        (⟨true, some ⟨100, 100⟩, some ⟨900, 700⟩, none, none, some "img",
          some ⟨3000, 2400⟩, some ⟨1000, 800⟩, none, none⟩ : CaptureState ℚ) = some
        { imageData := "img"
          ball := (.fin ((100 : ℚ) * (3000 / 1000)), .fin ((100 : ℚ) * (2400 / 800)))
          hole := (.fin ((900 : ℚ) * (3000 / 1000)), .fin ((700 : ℚ) * (2400 / 800)))
          metadata := ⟨3000, 2400⟩ } ∧
     (confirmCapture
        (⟨true, some ⟨100, 100⟩, some ⟨900, 700⟩, none, none, some "img",
          some ⟨3000, 2400⟩, some ⟨0, 800⟩, none, none⟩ : CaptureState ℚ)).map
        (fun e => e.ball.1) = some .posInf) :=
  ⟨⟨rfl, rfl, by decide, by decide, by decide, by decide, by decide⟩,
   confirmCapture_degenerate_behavior
     (⟨true, some ⟨100, 100⟩, some ⟨900, 700⟩, none, none, some "img",
       some ⟨3000, 2400⟩, some ⟨1000, 800⟩, none, none⟩ : CaptureState ℚ)
     (⟨true, some ⟨100, 100⟩, some ⟨900, 700⟩, none, none, some "img",
       some ⟨3000, 2400⟩, some ⟨0, 800⟩, none, none⟩ : CaptureState ℚ)
     "img" "img" ⟨100, 100⟩ ⟨900, 700⟩ ⟨100, 100⟩ ⟨900, 700⟩
     ⟨1000, 800⟩ ⟨0, 800⟩ ⟨3000, 2400⟩ ⟨3000, 2400⟩
     rfl rfl rfl rfl rfl (by decide) (by decide)
     rfl rfl rfl rfl rfl rfl (by decide) (by decide)⟩

end GreenEye
